import Mathlib

/-!
Shallow embedding of `src/clprog.cpp` (kale-miner OpenCL host dispatcher).

The file models the two functions of the source, `releaseResources`
(lines 32-41) and `executeKernel` (lines 51-210), over an explicit model
of the OpenCL driver (`Env`).  Every driver call of the source is given an
`Env` field that fixes its outcome (an error code, a success flag for the
handle-returning calls, or the value the call stores).  The host function
is then a pure function of `Env` and its parameters, returning the
outcome, the ordered trace of side-effecting calls, and the state of the
caller-provided output storage.

Modelling conventions, each marked at its use site:
- `cl_int` error codes are modelled as `Int` where the source only
  compares them against `CL_SUCCESS = 0`, and as `Nat` (the 32-bit pattern)
  where the source accumulates them with bitwise `|=` (lines 175-184).
- `CL_CALL` (lines 22-30) prints a diagnostic to stdout and calls
  `exit(EXIT_FAILURE)`; this is the `Outcome.exitFailure` outcome.
- `std::cout` diagnostics (platform listing, device attributes) are elided
  from the trace: no claim concerns stdout.  `std::cerr` output is kept.
- An out-of-bounds `std::vector::operator[]` access (undefined behavior in
  the source) is the `Outcome.undefinedBehavior` outcome, as is the
  integer division by zero possible at line 194.
- Device-side handles are identified by fixed distinct `Nat` tags; a null
  handle is `Option.none`, matching the source's null-pointer checks.
-/

/-- Side-effecting calls issued by the host code, in program order.
`std::cout` diagnostics are elided (see header). -/
inductive Event where
  /-- `std::cerr <<` output (the source's error diagnostics). -/
  | cerr (s : String)
  /-- `clCreateContext` call, line 107; `ok` = handle non-null. -/
  | createContext (ok : Bool)
  /-- `clCreateCommandQueue(WithProperties)` call, lines 113/115. -/
  | createQueue (ok : Bool)
  /-- `clCreateProgramWithSource` call, line 138. -/
  | createProgram (ok : Bool)
  /-- `clCreateKernel` call, line 155. -/
  | createKernel (ok : Bool)
  /-- `clCreateBuffer` call `i` of the four at lines 162-165. -/
  | createBuffer (i : Nat) (ok : Bool)
  /-- `clEnqueueWriteBuffer` of the found flag, line 175:
  blocking flag, value written, returned error pattern. -/
  | writeFound (blocking : Bool) (value : Nat) (code : Nat)
  /-- `clSetKernelArg` for argument index `i`, lines 176-184. -/
  | setArg (i : Nat) (code : Nat)
  /-- `clEnqueueNDRangeKernel`, line 195. -/
  | enqueue (globalWS localWS : Nat) (code : Int)
  /-- `clFinish`, line 202 (return value ignored by the source). -/
  | finish
  /-- `clEnqueueReadBuffer` of the found flag, line 203. -/
  | readFound (code : Int)
  /-- `clEnqueueReadBuffer` of the 32-byte digest, line 205. -/
  | readDigest (code : Int)
  /-- `clEnqueueReadBuffer` of the 8-byte nonce, line 206. -/
  | readNonce (code : Int)
  /-- `clReleaseMemObject` on handle `h`, line 35. -/
  | releaseMem (h : Nat)
  /-- `clReleaseKernel`, line 37. -/
  | releaseKern (h : Nat)
  /-- `clReleaseProgram`, line 38. -/
  | releaseProg (h : Nat)
  /-- `clReleaseCommandQueue`, line 39. -/
  | releaseQueue (h : Nat)
  /-- `clReleaseContext`, line 40. -/
  | releaseCtx (h : Nat)
deriving DecidableEq, Repr

/-- How one call of `executeKernel` ends. -/
inductive Outcome where
  /-- A `return code;` statement executes. -/
  | ret (code : Int)
  /-- `CL_CALL` hit a non-`CL_SUCCESS` code and ran `exit(EXIT_FAILURE)`
  after printing a diagnostic (lines 22-30). -/
  | exitFailure
  /-- Undefined behavior: out-of-bounds vector indexing (lines 71, 82) or
  division by zero (line 194). -/
  | undefinedBehavior
deriving DecidableEq, Repr

/-- Result of one modelled call: the outcome, the ordered trace of
side-effecting calls, and the caller-visible output storage (`none` means
the caller's `output` / `validNonce` memory was not written). -/
structure ExecOut where
  outcome : Outcome
  events : List Event
  hostDigest : Option (List Nat) := none
  hostNonce : Option Nat := none
deriving DecidableEq, Repr

/-- Prepend the events of an earlier program phase to the result of a
later one. -/
def withEvents (es : List Event) (o : ExecOut) : ExecOut :=
  { o with events := es ++ o.events }

/-- Model of the OpenCL driver and device for one call: outcome of every
driver call the source issues, in source order.  A `...Err` field of type
`Int` is the call's `cl_int` return code (`0` = `CL_SUCCESS`); an `...Ok`
field says whether a handle-returning call produced a non-null handle. -/
structure Env where
  /-- `clGetPlatformIDs(0, nullptr, &numPlatforms)`, line 59. -/
  platformCountErr : Int
  /-- Value stored into `numPlatforms` (a `cl_uint`). -/
  numPlatforms : Nat
  /-- `clGetPlatformIDs(numPlatforms, ...)`, line 61. -/
  platformListErr : Int
  /-- Combined code of the two `clGetPlatformInfo` calls made by
  `getPlatform` (lines 45-47) for platform `i`. -/
  platformInfoErr : Nat → Int
  /-- Name string returned by `getPlatform` for platform `i`. -/
  platformName : Nat → String
  /-- `clGetDeviceIDs(..., 0, nullptr, &numDevices)`, line 73. -/
  deviceCountErr : Int
  /-- Value stored into `numDevices` (a `cl_uint`). -/
  numDevices : Nat
  /-- `clGetDeviceIDs(..., numDevices, devices.data(), ...)`, line 81. -/
  deviceListErr : Int
  /-- Combined code of the six `clGetDeviceInfo` diagnostic queries,
  lines 91-96 (only issued when `showDeviceInfo`). -/
  deviceInfoErr : Int
  /-- `clCreateContext` returned a non-null handle, line 107. -/
  contextOk : Bool
  /-- Error code stored by `clCreateContext`. -/
  contextErr : Int
  /-- Queue creation returned a non-null handle, lines 113/115. -/
  queueOk : Bool
  /-- Error code stored by queue creation. -/
  queueErr : Int
  /-- `kernel.cl` opened successfully, line 123. -/
  kernelFileOk : Bool
  /-- `utils/keccak.cl` opened successfully, line 124. -/
  keccakFileOk : Bool
  /-- Contents read from `kernel.cl`. -/
  kernelSrc : String
  /-- Contents read from `utils/keccak.cl`. -/
  keccakSrc : String
  /-- `clCreateProgramWithSource` returned non-null, line 138. -/
  programOk : Bool
  /-- Error code stored by `clCreateProgramWithSource`. -/
  programErr : Int
  /-- `clBuildProgram` return code, line 145. -/
  buildErr : Int
  /-- Build log text fetched at lines 147-150. -/
  buildLog : String
  /-- `clCreateKernel` returned non-null, line 155. -/
  kernelOk : Bool
  /-- Error code stored by `clCreateKernel`. -/
  kernelErr : Int
  /-- `clCreateBuffer` call `i` of lines 162-165 returned non-null. -/
  bufOk : Nat → Bool
  /-- `clEnqueueWriteBuffer` return code as a 32-bit pattern, line 175
  (`Nat` because the source accumulates codes with bitwise `|=`). -/
  writeErr : Nat
  /-- `clSetKernelArg` return code for argument `i` as a 32-bit pattern,
  lines 176-184. -/
  argErr : Nat → Nat
  /-- Value stored by the `clGetDeviceInfo(CL_DEVICE_MAX_WORK_GROUP_SIZE)`
  query at line 192 (its return code is ignored by the source). -/
  maxWorkGroupSize : Nat
  /-- `clEnqueueNDRangeKernel` return code, line 195. -/
  enqueueErr : Int
  /-- Found-flag readback return code, line 203. -/
  readFoundErr : Int
  /-- `cl_int` value the found-flag readback stores (what the device
  kernel left in the flag buffer). -/
  foundValue : Int
  /-- Digest readback return code, line 205. -/
  readOutputErr : Int
  /-- 32 digest bytes the digest readback stores. -/
  digest : List Nat
  /-- Nonce readback return code, line 206. -/
  readNonceErr : Int
  /-- Nonce value the nonce readback stores. -/
  nonceVal : Nat

/-- Host-side parameters of `executeKernel` (line 51-52).  `platform` is
the platform-name hint (`none` = null pointer); `data` is the input
message (only its allocation is modelled). -/
structure Params where
  platform : Option String
  deviceId : Int
  data : List Nat
  dataSize : Int
  startNonce : Nat
  nonceOffset : Int
  batchSize : Nat
  difficulty : Int
  threadsPerBlock : Int
  showDeviceInfo : Bool

/-- C++ conversion of a signed `int` to `cl_uint` (value mod `2^32`),
as performed by the usual arithmetic conversions in `deviceId >=
numDevices` at line 75. -/
def uint32OfInt (i : Int) : Nat := (i % (2 ^ 32 : Int)).toNat

/-- C++ `static_cast<size_t>` of a signed `int` (value mod `2^64`),
as performed at line 193. -/
def uint64OfInt (i : Int) : Nat := (i % (2 ^ 64 : Int)).toNat

/-- Line 193: `localWorkSize = std::min(static_cast<size_t>(threadsPerBlock),
maxWorkGroupSize)`. -/
def localWorkSize (threadsPerBlock : Int) (maxWorkGroupSize : Nat) : Nat :=
  min (uint64OfInt threadsPerBlock) maxWorkGroupSize

/-- Line 194: `globalWorkSize = ((batchSize + localWorkSize - 1) /
localWorkSize) * localWorkSize`, in wrapping 64-bit (`size_t`) arithmetic.
`batchSize + localWorkSize - 1` is computed mod `2^64` (written with
`+ (2^64 - 1)` so the `batchSize = localWorkSize = 0` underflow of the
source is also represented); the final product cannot exceed the dividend,
so it needs no reduction.  The `localWorkSize = 0` division is undefined
behavior in the source; `executeKernel` below maps it to
`Outcome.undefinedBehavior` and never evaluates this function there. -/
def globalWorkSize (batchSize lws : Nat) : Nat :=
  ((batchSize + lws + (2 ^ 64 - 1)) % 2 ^ 64) / lws * lws

/-- Fixed handle tags for the five kinds of device resources (the source's
pointers, abstracted): the four buffers of line 166 are `0..3`. -/
def ctxH : Nat := 100

/-- Handle tag of the command queue. -/
def queueH : Nat := 101

/-- Handle tag of the program. -/
def progH : Nat := 102

/-- Handle tag of the kernel. -/
def kernH : Nat := 103

/-- Lines 32-41: release the buffers in array order, then kernel, program,
queue, context, each only if non-null.  The result is the ordered list of
release calls issued. -/
def releaseResources (context commandQueue program kernel : Option Nat)
    (buffers : List (Option Nat)) : List Event :=
  buffers.filterMap (fun b => b.map Event.releaseMem)
    ++ (kernel.map Event.releaseKern).toList
    ++ (program.map Event.releaseProg).toList
    ++ (commandQueue.map Event.releaseQueue).toList
    ++ (context.map Event.releaseCtx).toList

/-- The handle a release event targets (`none` for non-release events). -/
def relTarget : Event → Option Nat
  | .releaseMem h => some h
  | .releaseKern h => some h
  | .releaseProg h => some h
  | .releaseQueue h => some h
  | .releaseCtx h => some h
  | _ => none

/-- Rank of a release event in the teardown order of the source
(buffers, then kernel, then program, then queue, then context);
non-release events get no rank constraint (rank 0). -/
def relRank : Event → Nat
  | .releaseKern _ => 1
  | .releaseProg _ => 2
  | .releaseQueue _ => 3
  | .releaseCtx _ => 4
  | _ => 0

/-- Reference semantics for the OpenCL release calls: `live` is the list
of currently allocated handles; releasing a live handle removes it,
releasing anything else is a double-release fault (`none`). -/
def runReleases (live : List Nat) : List Event → Option (List Nat)
  | [] => some live
  | e :: es =>
    match relTarget e with
    | none => runReleases live es
    | some h => if h ∈ live then runReleases (live.erase h) es else none

/-- The handles `releaseResources` releases, in release order. -/
def releasedHandles (context commandQueue program kernel : Option Nat)
    (buffers : List (Option Nat)) : List Nat :=
  buffers.reduceOption ++ kernel.toList ++ program.toList
    ++ commandQueue.toList ++ context.toList

/-- First index whose name equals the hint, scanning from index `i`
(the `platformIndex < 0 && ... && name == platform` first-match-wins loop
of lines 64-70). -/
def findMatch (hint : String) : List String → Nat → Option Nat
  | [], _ => none
  | n :: ns, i => if n = hint then some i else findMatch hint ns (i + 1)

/-- Index the loop of lines 64-70 leaves in `platformIndex` (as
`Option`): a match needs a non-null, non-empty hint (`platform &&
*platform`) and an exact name equality; the first match wins. -/
def platformMatchIndex (hint : Option String) (names : List String) : Option Nat :=
  match hint with
  | none => none
  | some h => if h = "" then none else findMatch h names 0

/-- The platform names `getPlatform` returns for indices
`0 .. numPlatforms - 1`. -/
def platformNames (env : Env) : List String :=
  (List.range env.numPlatforms).map env.platformName

/-- Line 71: the index used to read `platforms[...]` — the matched index,
else the unguarded fallback `0`. -/
def platformSelIdx (env : Env) (p : Params) : Nat :=
  (platformMatchIndex p.platform (platformNames env)).getD 0

/-- The four buffer handles of line 166 (`none` where `clCreateBuffer`
returned null). -/
def bufHandles (env : Env) : List (Option Nat) :=
  [if env.bufOk 0 then some 0 else none,
   if env.bufOk 1 then some 1 else none,
   if env.bufOk 2 then some 2 else none,
   if env.bufOk 3 then some 3 else none]

/-- Line 134: the concatenated program source, keccak fragment first. -/
def fullSource (env : Env) : String :=
  env.keccakSrc ++ "\n" ++ env.kernelSrc

/-- The accumulated `error` of lines 175-184: the found-flag write's code
bitwise-or'ed (`|=`) with the nine `clSetKernelArg` codes. -/
def argErrAcc (env : Env) : Nat :=
  ((((((((env.writeErr ||| env.argErr 0) ||| env.argErr 1) ||| env.argErr 2)
    ||| env.argErr 3) ||| env.argErr 4) ||| env.argErr 5) ||| env.argErr 6)
    ||| env.argErr 7) ||| env.argErr 8

/-- Lines 202-209: block until device completion (`clFinish`), read the
found flag back (a `CL_CALL`, so a failure exits the process), read the
digest and nonce into the caller's storage only when the flag is exactly
`1` (again under `CL_CALL`), release everything, and return the flag
value. -/
def dispatchPost (env : Env) : ExecOut :=
  let rel := releaseResources (some ctxH) (some queueH) (some progH) (some kernH)
    (bufHandles env)
  if env.readFoundErr = 0 then
    if env.foundValue = 1 then
      if env.readOutputErr = 0 then
        if env.readNonceErr = 0 then
          { outcome := .ret env.foundValue,
            events := [.finish, .readFound 0, .readDigest 0, .readNonce 0] ++ rel,
            hostDigest := some env.digest, hostNonce := some env.nonceVal }
        else
          -- nonce readback CL_CALL failed after the digest was read back
          { outcome := .exitFailure,
            events := [.finish, .readFound 0, .readDigest 0,
              .readNonce env.readNonceErr],
            hostDigest := some env.digest }
      else
        { outcome := .exitFailure,
          events := [.finish, .readFound 0, .readDigest env.readOutputErr] }
    else
      { outcome := .ret env.foundValue,
        events := [.finish, .readFound 0] ++ rel }
  else
    { outcome := .exitFailure, events := [.finish, .readFound env.readFoundErr] }

/-- Lines 174-200: blocking write of `0` into the found flag, the nine
argument bindings with `|=`-accumulated error, the work partition of
lines 191-194 and the kernel enqueue.  A non-zero accumulated code or a
failed enqueue releases everything and returns `-1`; a zero local work
size makes line 194 divide by zero (undefined behavior). -/
def dispatchPhase (env : Env) (p : Params) : ExecOut :=
  let rel := releaseResources (some ctxH) (some queueH) (some progH) (some kernH)
    (bufHandles env)
  let pre : List Event :=
    [.writeFound true 0 env.writeErr, .setArg 0 (env.argErr 0),
     .setArg 1 (env.argErr 1), .setArg 2 (env.argErr 2), .setArg 3 (env.argErr 3),
     .setArg 4 (env.argErr 4), .setArg 5 (env.argErr 5), .setArg 6 (env.argErr 6),
     .setArg 7 (env.argErr 7), .setArg 8 (env.argErr 8)]
  if argErrAcc env = 0 then
    let lws := localWorkSize p.threadsPerBlock env.maxWorkGroupSize
    if lws = 0 then
      { outcome := .undefinedBehavior, events := pre }
    else
      let gws := globalWorkSize p.batchSize lws
      if env.enqueueErr = 0 then
        withEvents (pre ++ [.enqueue gws lws 0]) (dispatchPost env)
      else
        { outcome := .ret (-1),
          events := pre ++ [.enqueue gws lws env.enqueueErr,
            .cerr ("Error: " ++ toString env.enqueueErr)] ++ rel }
  else
    { outcome := .ret (-1),
      events := pre ++ [.cerr ("Error: " ++ toString (argErrAcc env))] ++ rel }

/-- Lines 162-173: the four `clCreateBuffer` calls all run, then the first
null entry of the array triggers one diagnostic, a release of the whole
(partially populated) buffer array together with the upstream resources,
and `return -1`. -/
def bufferPhase (env : Env) (p : Params) : ExecOut :=
  let creates : List Event :=
    [.createBuffer 0 (env.bufOk 0), .createBuffer 1 (env.bufOk 1),
     .createBuffer 2 (env.bufOk 2), .createBuffer 3 (env.bufOk 3)]
  if env.bufOk 0 ∧ env.bufOk 1 ∧ env.bufOk 2 ∧ env.bufOk 3 then
    withEvents creates (dispatchPhase env p)
  else
    { outcome := .ret (-1),
      events := creates ++ [.cerr "Error allocating buffer."]
        ++ releaseResources (some ctxH) (some queueH) (some progH) (some kernH)
          (bufHandles env) }

/-- Lines 123-160: open the two kernel source files, create the program
from `fullSource`, build it (surfacing the build log on failure), and
extract the `run` kernel.  Every failure releases exactly what exists so
far and returns `-1`. -/
def buildPhase (env : Env) (p : Params) : ExecOut :=
  if env.kernelFileOk ∧ env.keccakFileOk then
    if env.programOk then
      if env.buildErr = 0 then
        if env.kernelOk ∧ env.kernelErr = 0 then
          withEvents [.createProgram true, .createKernel true] (bufferPhase env p)
        else
          { outcome := .ret (-1),
            events := [.createProgram true, .createKernel env.kernelOk,
              .cerr ("Error: " ++ toString env.kernelErr)]
              ++ releaseResources (some ctxH) (some queueH) (some progH)
                (if env.kernelOk then some kernH else none) [] }
      else
        { outcome := .ret (-1),
          events := [.createProgram true,
            .cerr ("Kernel build error: " ++ env.buildLog)]
            ++ releaseResources (some ctxH) (some queueH) (some progH) none [] }
    else
      { outcome := .ret (-1),
        events := [.createProgram false,
          .cerr ("Error: " ++ toString env.programErr)]
          ++ releaseResources (some ctxH) (some queueH) none none [] }
  else
    { outcome := .ret (-1),
      events := [.cerr "Failed to load OpenCL kernel files."]
        ++ releaseResources (some ctxH) (some queueH) none none [] }

/-- Lines 107-121: context and queue creation.  A null context returns
`-1` with no release call (nothing was allocated); a null queue releases
the context (the null queue is skipped inside `releaseResources`) and
returns `-1`. -/
def setupPhase (env : Env) (p : Params) : ExecOut :=
  if env.contextOk then
    if env.queueOk then
      withEvents [.createContext true, .createQueue true] (buildPhase env p)
    else
      { outcome := .ret (-1),
        events := [.createContext true, .createQueue false,
          .cerr ("Error: " ++ toString env.queueErr)]
          ++ releaseResources (some ctxH) none none none [] }
  else
    { outcome := .ret (-1),
      events := [.createContext false,
        .cerr ("Error: " ++ toString env.contextErr)] }

/-- Lines 51-210, entry point: platform enumeration and selection, device
enumeration, the device-index check of line 75 (signed `deviceId`
converted to `cl_uint`), the optional diagnostic queries, then the later
phases.  `CL_CALL` failures exit the process; the out-of-bounds accesses
`platforms[0]` (empty platform list, line 71) and `devices[deviceId]`
(negative index surviving the unsigned comparison, line 82) are undefined
behavior. -/
def executeKernel (env : Env) (p : Params) : ExecOut :=
  if env.platformCountErr = 0 then
    if env.platformListErr = 0 then
      if ∀ i < env.numPlatforms, env.platformInfoErr i = 0 then
        if platformSelIdx env p < env.numPlatforms then
          if env.deviceCountErr = 0 then
            if uint32OfInt p.deviceId < env.numDevices then
              if env.deviceListErr = 0 then
                if 0 ≤ p.deviceId then
                  if p.showDeviceInfo = false ∨ env.deviceInfoErr = 0 then
                    setupPhase env p
                  else
                    { outcome := .exitFailure, events := [] }
                else
                  -- devices[deviceId] with a negative signed index, line 82
                  { outcome := .undefinedBehavior, events := [] }
              else
                { outcome := .exitFailure, events := [] }
            else
              { outcome := .ret (-1), events := [.cerr "Invalid device ID"] }
          else
            { outcome := .exitFailure, events := [] }
        else
          -- platforms[platformSelIdx] out of bounds, line 71
          { outcome := .undefinedBehavior, events := [] }
      else
        { outcome := .exitFailure, events := [] }
    else
      { outcome := .exitFailure, events := [] }
  else
    { outcome := .exitFailure, events := [] }

/-- A fully successful driver model: one platform, one device, every call
succeeds, build clean, kernel leaves the found flag at `0`. -/
def envBase : Env where
  platformCountErr := 0
  numPlatforms := 1
  platformListErr := 0
  platformInfoErr := fun _ => 0
  platformName := fun _ => "NVIDIA CUDA"
  deviceCountErr := 0
  numDevices := 1
  deviceListErr := 0
  deviceInfoErr := 0
  contextOk := true
  contextErr := 0
  queueOk := true
  queueErr := 0
  kernelFileOk := true
  keccakFileOk := true
  kernelSrc := "kernel source text"
  keccakSrc := "keccak source text"
  programOk := true
  programErr := 0
  buildErr := 0
  buildLog := ""
  kernelOk := true
  kernelErr := 0
  bufOk := fun _ => true
  writeErr := 0
  argErr := fun _ => 0
  maxWorkGroupSize := 1024
  enqueueErr := 0
  readFoundErr := 0
  foundValue := 0
  readOutputErr := 0
  digest := List.replicate 32 0
  readNonceErr := 0
  nonceVal := 0

/-- Representative call parameters: no platform hint, device 0, an
80-byte message, batch of 1024, 128 threads per block. -/
def paramsBase : Params where
  platform := none
  deviceId := 0
  data := List.replicate 80 0
  dataSize := 80
  startNonce := 0
  nonceOffset := 1
  batchSize := 1024
  difficulty := 8
  threadsPerBlock := 128
  showDeviceInfo := false

/-- The guards of lines 59-105 all pass: enumeration succeeded, the
platform access of line 71 is in bounds, the device index passed the
line-75 check as well as the line-82 indexing, and the optional
diagnostic queries did not abort. -/
@[reducible] def reachesSetup (env : Env) (p : Params) : Prop :=
  env.platformCountErr = 0 ∧ env.platformListErr = 0 ∧
    (∀ i < env.numPlatforms, env.platformInfoErr i = 0) ∧
    platformSelIdx env p < env.numPlatforms ∧
    env.deviceCountErr = 0 ∧ uint32OfInt p.deviceId < env.numDevices ∧
    env.deviceListErr = 0 ∧ 0 ≤ p.deviceId ∧
    (p.showDeviceInfo = false ∨ env.deviceInfoErr = 0)

/-- `reachesSetup` plus successful context and queue creation: control
reaches the kernel-source loading of line 123. -/
@[reducible] def reachesBuild (env : Env) (p : Params) : Prop :=
  reachesSetup env p ∧ env.contextOk = true ∧ env.queueOk = true

/-- `reachesBuild` plus successful file loads, program creation, build
and kernel extraction: control reaches the buffer allocations of
line 162. -/
@[reducible] def reachesBuffers (env : Env) (p : Params) : Prop :=
  reachesBuild env p ∧ env.kernelFileOk = true ∧ env.keccakFileOk = true ∧
    env.programOk = true ∧ env.buildErr = 0 ∧ env.kernelOk = true ∧
    env.kernelErr = 0

/-- `reachesBuffers` plus all four buffer creations succeeded: control
reaches the found-flag write of line 175. -/
@[reducible] def reachesDispatch (env : Env) (p : Params) : Prop :=
  reachesBuffers env p ∧ env.bufOk 0 = true ∧ env.bufOk 1 = true ∧
    env.bufOk 2 = true ∧ env.bufOk 3 = true

/-- Is the event a kernel-enqueue call? -/
def isEnqueue : Event → Bool
  | .enqueue _ _ _ => true
  | _ => false

/-- Is the event the creation of a context, queue, program, kernel or
buffer? -/
def isCreate : Event → Bool
  | .createContext _ => true
  | .createQueue _ => true
  | .createProgram _ => true
  | .createKernel _ => true
  | .createBuffer _ _ => true
  | _ => false

/-- The result of one program phase agrees with the result of a later
phase on outcome and on both caller-visible outputs (the phase only
contributed events). -/
@[reducible] def sameResultFields (o o2 : ExecOut) : Prop :=
  o.outcome = o2.outcome ∧ o.hostDigest = o2.hostDigest ∧
    o.hostNonce = o2.hostNonce

/-- A phase ended with the given outcome and no caller-visible output
written. -/
@[reducible] def earlyResult (o : ExecOut) (oc : Outcome) : Prop :=
  o.outcome = oc ∧ o.hostDigest = none ∧ o.hostNonce = none

/-- The release semantics of `runReleases`, restricted to the released
handles themselves: releasing a live handle removes it, anything else is a
double-release fault. -/
def runH (live : List Nat) : List Nat → Option (List Nat)
  | [] => some live
  | h :: hs => if h ∈ live then runH (live.erase h) hs else none

theorem withEvents_outcome (es : List Event) (o : ExecOut) :
    (withEvents es o).outcome = o.outcome := rfl

theorem withEvents_events (es : List Event) (o : ExecOut) :
    (withEvents es o).events = es ++ o.events := rfl

theorem withEvents_hostDigest (es : List Event) (o : ExecOut) :
    (withEvents es o).hostDigest = o.hostDigest := rfl

theorem withEvents_hostNonce (es : List Event) (o : ExecOut) :
    (withEvents es o).hostNonce = o.hostNonce := rfl

/-- Unfolding lemma: under `reachesSetup` the enumeration stage emits no
events and control transfers to `setupPhase`. -/
theorem executeKernel_eq_setupPhase (env : Env) (p : Params)
    (h : reachesSetup env p) : executeKernel env p = setupPhase env p := by
  obtain ⟨h1, h2, h3, h4, h5, h6, h7, h8, h9⟩ := h
  unfold executeKernel
  rw [if_pos h1, if_pos h2, if_pos h3, if_pos h4, if_pos h5, if_pos h6,
    if_pos h7, if_pos h8, if_pos h9]

/-- Unfolding lemma: under `reachesBuild` the setup stage emits the two
successful creation events and control transfers to `buildPhase`. -/
theorem executeKernel_eq_buildPhase (env : Env) (p : Params)
    (h : reachesBuild env p) :
    executeKernel env p =
      withEvents [.createContext true, .createQueue true] (buildPhase env p) := by
  obtain ⟨hs, hc, hq⟩ := h
  rw [executeKernel_eq_setupPhase env p hs]
  unfold setupPhase
  rw [if_pos hc, if_pos hq]

/-- Unfolding lemma: under `reachesBuffers` the build stage emits the two
successful creation events and control transfers to `bufferPhase`. -/
theorem executeKernel_eq_bufferPhase (env : Env) (p : Params)
    (h : reachesBuffers env p) :
    executeKernel env p =
      withEvents [.createContext true, .createQueue true, .createProgram true,
        .createKernel true] (bufferPhase env p) := by
  obtain ⟨hb, hf1, hf2, hpr, hbe, hk, hke⟩ := h
  rw [executeKernel_eq_buildPhase env p hb]
  unfold buildPhase
  rw [if_pos ⟨hf1, hf2⟩, if_pos hpr, if_pos hbe, if_pos ⟨hk, hke⟩]
  rfl

/-- Unfolding lemma: under `reachesDispatch` the buffer stage emits the
four successful creation events and control transfers to
`dispatchPhase`. -/
theorem executeKernel_eq_dispatchPhase (env : Env) (p : Params)
    (h : reachesDispatch env p) :
    executeKernel env p =
      withEvents [.createContext true, .createQueue true, .createProgram true,
        .createKernel true, .createBuffer 0 true, .createBuffer 1 true,
        .createBuffer 2 true, .createBuffer 3 true] (dispatchPhase env p) := by
  obtain ⟨hb, h0, h1, h2, h3⟩ := h
  rw [executeKernel_eq_bufferPhase env p hb]
  unfold bufferPhase
  rw [if_pos ⟨h0, h1, h2, h3⟩, h0, h1, h2, h3]
  rfl

theorem runReleases_eq_runH (live : List Nat) (evs : List Event) :
    runReleases live evs = runH live (evs.filterMap relTarget) := by
  induction evs generalizing live with
  | nil => rfl
  | cons e es ih =>
    cases htarget : relTarget e with
    | none =>
      simp only [runReleases, htarget, List.filterMap_cons]
      exact ih live
    | some h =>
      simp only [runReleases, htarget, List.filterMap_cons, runH]
      by_cases hm : h ∈ live
      · rw [if_pos hm, if_pos hm]; exact ih _
      · rw [if_neg hm, if_neg hm]

theorem runH_self (hs : List Nat) (h : hs.Nodup) : runH hs hs = some [] := by
  induction hs with
  | nil => rfl
  | cons a t ih =>
    unfold runH
    rw [if_pos (List.mem_cons_self a t), List.erase_cons_head]
    exact ih (List.Nodup.of_cons h)

theorem runH_nil_of_ne (hs : List Nat) (h : hs ≠ []) : runH [] hs = none := by
  cases hs with
  | nil => exact absurd rfl h
  | cons a t => simp [runH]

theorem runH_append (live : List Nat) (xs ys : List Nat) :
    runH live (xs ++ ys) = (runH live xs).bind (fun l2 => runH l2 ys) := by
  induction xs generalizing live with
  | nil => rfl
  | cons a t ih =>
    simp only [List.cons_append, runH]
    by_cases hm : a ∈ live
    · rw [if_pos hm, if_pos hm]; exact ih _
    · rw [if_neg hm, if_neg hm]; rfl

theorem filterMap_relTarget_releaseResources (c q pr k : Option Nat)
    (bufs : List (Option Nat)) :
    (releaseResources c q pr k bufs).filterMap relTarget =
      releasedHandles c q pr k bufs := by
  unfold releaseResources releasedHandles
  rw [List.filterMap_append, List.filterMap_append, List.filterMap_append,
    List.filterMap_append]
  have hbufs : (bufs.filterMap (fun b => b.map Event.releaseMem)).filterMap
      relTarget = bufs.reduceOption := by
    induction bufs with
    | nil => rfl
    | cons b bs ih =>
      cases b with
      | none => simpa [List.filterMap_cons] using ih
      | some x => simpa [List.filterMap_cons, relTarget] using ih
  rw [hbufs]
  cases k <;> cases pr <;> cases q <;> cases c <;> rfl

theorem relRank_mem_bufs {e : Event} {bufs : List (Option Nat)}
    (h : e ∈ bufs.filterMap (fun b => b.map Event.releaseMem)) :
    relRank e = 0 := by
  obtain ⟨b, -, hb⟩ := List.mem_filterMap.mp h
  cases b with
  | none => simp at hb
  | some x =>
    simp only [Option.map_some'] at hb
    rw [← Option.some.injEq] at hb
    cases hb
    rfl

theorem releaseResources_rank_sorted (c q pr k : Option Nat)
    (bufs : List (Option Nat)) :
    (releaseResources c q pr k bufs).Pairwise
      (fun a b => relRank a ≤ relRank b) := by
  have hk : ∀ e ∈ (k.map Event.releaseKern).toList, relRank e = 1 := by
    cases k <;> simp [relRank]
  have hp : ∀ e ∈ (pr.map Event.releaseProg).toList, relRank e = 2 := by
    cases pr <;> simp [relRank]
  have hq : ∀ e ∈ (q.map Event.releaseQueue).toList, relRank e = 3 := by
    cases q <;> simp [relRank]
  have hc : ∀ e ∈ (c.map Event.releaseCtx).toList, relRank e = 4 := by
    cases c <;> simp [relRank]
  have hsingle : ∀ (o : Option Event),
      o.toList.Pairwise (fun a b => relRank a ≤ relRank b) := by
    intro o; cases o <;> simp
  unfold releaseResources
  refine List.pairwise_append.mpr ⟨List.pairwise_append.mpr
    ⟨List.pairwise_append.mpr ⟨List.pairwise_append.mpr
      ⟨?_, hsingle _, ?_⟩, hsingle _, ?_⟩, hsingle _, ?_⟩, hsingle _, ?_⟩
  · exact List.pairwise_of_forall_mem_list fun a ha b hb => by
      rw [relRank_mem_bufs ha, relRank_mem_bufs hb]
  · intro a ha b hb
    rw [relRank_mem_bufs ha, hk b hb]
    omega
  · intro a ha b hb
    rw [hp b hb]
    rcases List.mem_append.mp ha with h | h
    · rw [relRank_mem_bufs h]; omega
    · rw [hk a h]; omega
  · intro a ha b hb
    rw [hq b hb]
    rcases List.mem_append.mp ha with h | h
    · rcases List.mem_append.mp h with h2 | h2
      · rw [relRank_mem_bufs h2]; omega
      · rw [hk a h2]; omega
    · rw [hp a h]; omega
  · intro a ha b hb
    rw [hc b hb]
    rcases List.mem_append.mp ha with h | h
    · rcases List.mem_append.mp h with h2 | h2
      · rcases List.mem_append.mp h2 with h3 | h3
        · rw [relRank_mem_bufs h3]; omega
        · rw [hk a h3]; omega
      · rw [hp a h2]; omega
    · rw [hq a h]; omega

theorem reduceOption_map_some_append_replicate_none (hs : List Nat) (n : Nat) :
    (hs.map some ++ List.replicate n none).reduceOption = hs := by
  induction hs with
  | nil =>
    induction n with
    | zero => rfl
    | succ m ih => simp [List.replicate_succ, List.reduceOption]
  | cons a t ih => simp [List.reduceOption, ih]

/-- C3 counterexample: with `threadsPerBlock = 2` and a device maximum of
`1024` the local work size is `2`, but at `batchSize = 2^64 - 1` the
`batchSize + localWorkSize - 1` expression of line 194 wraps around in
64-bit `size_t` arithmetic and the computed global work size is `0`,
which is smaller than the batch size — the claim's bound
`globalWorkSize >= batchSize` fails on this triple. -/
theorem globalWorkSize_overflow_cex :
    localWorkSize 2 1024 = 2 ∧ globalWorkSize (2 ^ 64 - 1) 2 = 0 ∧
      ¬(2 ^ 64 - 1 ≤ globalWorkSize (2 ^ 64 - 1) 2) := by
  refine ⟨by decide, by decide, by decide⟩

/-- C3 (amended): the work partitioner computes
`localWorkSize = min(threadsPerBlock as size_t, deviceMaxGroupSize)`, and
whenever the local work size is positive and
`batchSize + localWorkSize - 1` does not overflow 64-bit `size_t`
arithmetic, the computed `globalWorkSize` is at least `batchSize` and is
an exact multiple of `localWorkSize`. -/
theorem globalWorkSize_partition (batchSize : Nat) (tpb : Int) (mwgs : Nat)
    (hl : 0 < localWorkSize tpb mwgs)
    (hov : batchSize + localWorkSize tpb mwgs - 1 < 2 ^ 64) :
    localWorkSize tpb mwgs = min (uint64OfInt tpb) mwgs ∧
    batchSize ≤ globalWorkSize batchSize (localWorkSize tpb mwgs) ∧
    localWorkSize tpb mwgs ∣ globalWorkSize batchSize (localWorkSize tpb mwgs) := by
  refine ⟨rfl, ?_, dvd_mul_left _ _⟩
  set l := localWorkSize tpb mwgs with hldef
  have hmod : (batchSize + l + (2 ^ 64 - 1)) % 2 ^ 64 = batchSize + l - 1 := by
    have h1 : batchSize + l + (2 ^ 64 - 1) = (batchSize + l - 1) + 2 ^ 64 := by
      omega
    rw [h1, Nat.add_mod_right, Nat.mod_eq_of_lt hov]
  unfold globalWorkSize
  rw [hmod]
  rcases Nat.eq_zero_or_pos batchSize with hb | hb
  · simp [hb]
  · have h2 : batchSize + l - 1 = (batchSize - 1) + l := by omega
    rw [h2, Nat.add_div_right _ hl]
    have h3 : batchSize - 1 < ((batchSize - 1) / l + 1) * l :=
      (Nat.div_lt_iff_lt_mul hl).mp (Nat.lt_succ_self _)
    omega

/-- C3 witness: a representative in-range triple — batch 1000, 128
threads per block, device maximum 256 — satisfies both hypotheses, and
the amended theorem applies. -/
theorem globalWorkSize_partition_witness :
    0 < localWorkSize 128 256 ∧ 1000 + localWorkSize 128 256 - 1 < 2 ^ 64 ∧
    (localWorkSize 128 256 = min (uint64OfInt 128) 256 ∧
      1000 ≤ globalWorkSize 1000 (localWorkSize 128 256) ∧
      localWorkSize 128 256 ∣ globalWorkSize 1000 (localWorkSize 128 256)) :=
  ⟨by decide, by decide,
    globalWorkSize_partition 1000 128 256 (by decide) (by decide)⟩

/-- C4 counterexample: the claim's idempotence clause fails.  With a
single live context handle, one call of `releaseResources` releases it;
running the same call a second time with the same (unchanged, pass-by-
value) handle issues a second `clReleaseContext` on a handle that is no
longer live — a double release fault in the reference release
semantics. -/
theorem releaseResources_not_idempotent_cex :
    runReleases [100] (releaseResources (some 100) none none none []) =
        some [] ∧
    runReleases [100] (releaseResources (some 100) none none none []
        ++ releaseResources (some 100) none none none []) = none := by
  refine ⟨by decide, by decide⟩

/-- C4 (amended): `releaseResources` releases each handle only if it is
non-null, in the fixed order buffers, then kernel, then program, then
queue, then context; with a buffer array whose first `N` entries are
non-null and the rest null it releases exactly those `N` buffer handles
(plus the non-null upstream handles), each exactly once with no
double-release fault in a single call; but calling it twice with the same
handle values double-releases every non-null handle (the handles are
passed by value and are not cleared), so the operation is idempotent only
for an all-null resource set. -/
theorem releaseResources_order_and_exactness (c q pr k : Option Nat)
    (hs : List Nat) (n : Nat)
    (hnd : (releasedHandles c q pr k (hs.map some ++ List.replicate n none)).Nodup) :
    (releaseResources c q pr k (hs.map some ++ List.replicate n none)).Pairwise
        (fun a b => relRank a ≤ relRank b) ∧
    releasedHandles c q pr k (hs.map some ++ List.replicate n none) =
        hs ++ k.toList ++ pr.toList ++ q.toList ++ c.toList ∧
    runReleases (releasedHandles c q pr k (hs.map some ++ List.replicate n none))
        (releaseResources c q pr k (hs.map some ++ List.replicate n none)) =
        some [] ∧
    (releasedHandles c q pr k (hs.map some ++ List.replicate n none) ≠ [] →
      runReleases
        (releasedHandles c q pr k (hs.map some ++ List.replicate n none))
        (releaseResources c q pr k (hs.map some ++ List.replicate n none)
          ++ releaseResources c q pr k (hs.map some ++ List.replicate n none))
        = none) := by
  have hexact : releasedHandles c q pr k (hs.map some ++ List.replicate n none) =
      hs ++ k.toList ++ pr.toList ++ q.toList ++ c.toList := by
    unfold releasedHandles
    rw [reduceOption_map_some_append_replicate_none]
  refine ⟨releaseResources_rank_sorted c q pr k _, hexact, ?_, ?_⟩
  · rw [runReleases_eq_runH, filterMap_relTarget_releaseResources]
    exact runH_self _ hnd
  · intro hne
    rw [runReleases_eq_runH, List.filterMap_append,
      filterMap_relTarget_releaseResources, runH_append, runH_self _ hnd,
      Option.some_bind]
    exact runH_nil_of_ne _ hne

/-- C4 witness: a fully populated resource set — context, queue, program,
kernel and the first two of four buffers — instantiates the amended
theorem. -/
theorem releaseResources_order_and_exactness_witness :
    (releasedHandles (some 100) (some 101) (some 102) (some 103)
        ([0, 1].map some ++ List.replicate 2 none)).Nodup ∧
    ((releaseResources (some 100) (some 101) (some 102) (some 103)
        ([0, 1].map some ++ List.replicate 2 none)).Pairwise
        (fun a b => relRank a ≤ relRank b) ∧
      releasedHandles (some 100) (some 101) (some 102) (some 103)
          ([0, 1].map some ++ List.replicate 2 none) =
        [0, 1] ++ (some 103).toList ++ (some 102).toList ++ (some 101).toList
          ++ (some 100).toList ∧
      runReleases
          (releasedHandles (some 100) (some 101) (some 102) (some 103)
            ([0, 1].map some ++ List.replicate 2 none))
          (releaseResources (some 100) (some 101) (some 102) (some 103)
            ([0, 1].map some ++ List.replicate 2 none)) = some [] ∧
      (releasedHandles (some 100) (some 101) (some 102) (some 103)
          ([0, 1].map some ++ List.replicate 2 none) ≠ [] →
        runReleases
          (releasedHandles (some 100) (some 101) (some 102) (some 103)
            ([0, 1].map some ++ List.replicate 2 none))
          (releaseResources (some 100) (some 101) (some 102) (some 103)
            ([0, 1].map some ++ List.replicate 2 none)
            ++ releaseResources (some 100) (some 101) (some 102) (some 103)
              ([0, 1].map some ++ List.replicate 2 none)) = none)) :=
  ⟨by decide, releaseResources_order_and_exactness (some 100) (some 101)
    (some 102) (some 103) [0, 1] 2 (by decide)⟩

theorem findMatch_lt (hint : String) (ns : List String) (j i : Nat)
    (h : findMatch hint ns j = some i) : i < j + ns.length := by
  induction ns generalizing j with
  | nil => simp [findMatch] at h
  | cons a t ih =>
    unfold findMatch at h
    by_cases ha : a = hint
    · rw [if_pos ha] at h
      injection h with h2
      simp only [List.length_cons]
      omega
    · rw [if_neg ha] at h
      have := ih (j + 1) h
      simp only [List.length_cons]
      omega

theorem platformMatchIndex_lt (hint : Option String) (names : List String)
    (i : Nat) (h : platformMatchIndex hint names = some i) : i < names.length := by
  cases hint with
  | none => simp [platformMatchIndex] at h
  | some s =>
    simp only [platformMatchIndex] at h
    by_cases hs : s = ""
    · rw [if_pos hs] at h; simp at h
    · rw [if_neg hs] at h
      have := findMatch_lt s names 0 i h
      omega

/-- C6: once platform and device enumeration succeed (and the platform
access of line 71 is in bounds), any device index whose `cl_uint`
conversion is at or beyond the enumerated device count makes
`executeKernel` return `-1` immediately: the only event is the
`Invalid device ID` diagnostic, so no context, queue, program, kernel or
buffer creation call ever happens before that return. -/
theorem invalid_device_returns_minus_one (env : Env) (p : Params)
    (h1 : env.platformCountErr = 0) (h2 : env.platformListErr = 0)
    (h3 : ∀ i < env.numPlatforms, env.platformInfoErr i = 0)
    (h4 : platformSelIdx env p < env.numPlatforms)
    (h5 : env.deviceCountErr = 0)
    (h6 : env.numDevices ≤ uint32OfInt p.deviceId) :
    (executeKernel env p).outcome = .ret (-1) ∧
    (executeKernel env p).events = [.cerr "Invalid device ID"] ∧
    (executeKernel env p).events.all (fun e => !isCreate e) = true := by
  have hlt : ¬(uint32OfInt p.deviceId < env.numDevices) := by omega
  unfold executeKernel
  rw [if_pos h1, if_pos h2, if_pos h3, if_pos h4, if_pos h5, if_neg hlt]
  exact ⟨rfl, rfl, rfl⟩

/-- C6 witness: one enumerated device and caller index 5. -/
theorem invalid_device_returns_minus_one_witness :
    (envBase.platformCountErr = 0 ∧ envBase.platformListErr = 0 ∧
      (∀ i < envBase.numPlatforms, envBase.platformInfoErr i = 0) ∧
      platformSelIdx envBase { paramsBase with deviceId := 5 } <
        envBase.numPlatforms ∧
      envBase.deviceCountErr = 0 ∧
      envBase.numDevices ≤ uint32OfInt (5 : Int)) ∧
    ((executeKernel envBase { paramsBase with deviceId := 5 }).outcome =
        .ret (-1) ∧
      (executeKernel envBase { paramsBase with deviceId := 5 }).events =
        [.cerr "Invalid device ID"] ∧
      (executeKernel envBase { paramsBase with deviceId := 5 }).events.all
        (fun e => !isCreate e) = true) :=
  ⟨⟨by decide, by decide, by decide, by decide, by decide, by decide⟩,
    invalid_device_returns_minus_one envBase { paramsBase with deviceId := 5 }
      (by decide) (by decide) (by decide) (by decide) (by decide) (by decide)⟩

/-- C9 counterexample: the claim quantifies over every negative device
index, but the line-75 comparison only converts the index to `cl_uint`
(mod `2^32`): with an enumerated device count of `2^31 + 1` (a value
`cl_uint` admits) and index `-2^31`, the converted value `2^31` passes
the check and line 82 then indexes `devices` with a negative signed
index — undefined behavior, not a `-1` return. -/
theorem negative_device_id_cex :
    (executeKernel { envBase with numDevices := 2 ^ 31 + 1 }
        { paramsBase with deviceId := -(2 ^ 31) }).outcome =
      .undefinedBehavior ∧
    (executeKernel { envBase with numDevices := 2 ^ 31 + 1 }
        { paramsBase with deviceId := -(2 ^ 31) }).outcome ≠ .ret (-1) := by
  refine ⟨by decide, by decide⟩

/-- C9 (amended): for every negative device index, provided the
enumerated device count is at most `2^31` (always the case for a real
GPU list), the `cl_uint` conversion of the index is at least `2^31`, so
the line-75 check rejects it: `executeKernel` returns `-1` with only the
diagnostic event and no resource ever created. -/
theorem negative_device_id_rejected (env : Env) (p : Params)
    (h1 : env.platformCountErr = 0) (h2 : env.platformListErr = 0)
    (h3 : ∀ i < env.numPlatforms, env.platformInfoErr i = 0)
    (h4 : platformSelIdx env p < env.numPlatforms)
    (h5 : env.deviceCountErr = 0)
    (hneg : p.deviceId < 0) (hrange : -(2 ^ 31) ≤ p.deviceId)
    (hdev : env.numDevices ≤ 2 ^ 31) :
    (executeKernel env p).outcome = .ret (-1) ∧
    (executeKernel env p).events = [.cerr "Invalid device ID"] ∧
    (executeKernel env p).events.all (fun e => !isCreate e) = true := by
  have h6 : env.numDevices ≤ uint32OfInt p.deviceId := by
    unfold uint32OfInt
    have hm : p.deviceId % (2 ^ 32 : Int) = p.deviceId + 2 ^ 32 := by omega
    rw [hm]
    omega
  exact invalid_device_returns_minus_one env p h1 h2 h3 h4 h5 h6

/-- C9 witness: device index `-1` against a single enumerated device. -/
theorem negative_device_id_rejected_witness :
    (envBase.platformCountErr = 0 ∧
      ((-1 : Int) < 0) ∧ (-(2 ^ 31) : Int) ≤ -1 ∧ envBase.numDevices ≤ 2 ^ 31) ∧
    ((executeKernel envBase { paramsBase with deviceId := -1 }).outcome =
        .ret (-1) ∧
      (executeKernel envBase { paramsBase with deviceId := -1 }).events =
        [.cerr "Invalid device ID"] ∧
      (executeKernel envBase { paramsBase with deviceId := -1 }).events.all
        (fun e => !isCreate e) = true) :=
  ⟨⟨by decide, by decide, by decide, by decide⟩,
    negative_device_id_rejected envBase { paramsBase with deviceId := -1 }
      (by decide) (by decide) (by decide) (by decide) (by decide) (by decide)
      (by decide) (by decide)⟩

/-- C10: platform selection (line 71) reads `platforms[platformIndex]`
for a matched index, else the unguarded fallback `platforms[0]`.  Once
the enumeration calls succeed, the access is in bounds exactly when at
least one platform was enumerated: with zero platforms the fallback
index `0` is out of bounds (undefined behavior); with at least one the
selected index is always within the enumerated list. -/
theorem platform_selection_unguarded (env : Env) (p : Params)
    (h1 : env.platformCountErr = 0) (h2 : env.platformListErr = 0)
    (h3 : ∀ i < env.numPlatforms, env.platformInfoErr i = 0) :
    (env.numPlatforms = 0 →
      (executeKernel env p).outcome = .undefinedBehavior) ∧
    (0 < env.numPlatforms → platformSelIdx env p < env.numPlatforms) := by
  constructor
  · intro h0
    have hsel : ¬(platformSelIdx env p < env.numPlatforms) := by
      rw [h0]; omega
    unfold executeKernel
    rw [if_pos h1, if_pos h2, if_pos h3, if_neg hsel]
  · intro hpos
    unfold platformSelIdx
    cases hmi : platformMatchIndex p.platform (platformNames env) with
    | none => simpa using hpos
    | some i =>
      have hlen := platformMatchIndex_lt p.platform (platformNames env) i hmi
      simp only [Option.getD_some]
      simpa [platformNames] using hlen

/-- C10 witness: a driver model that enumerates zero platforms — the
call hits the out-of-bounds fallback access. -/
theorem platform_selection_unguarded_witness :
    (({ envBase with numPlatforms := 0 } : Env).platformCountErr = 0 ∧
      ({ envBase with numPlatforms := 0 } : Env).platformListErr = 0 ∧
      (∀ i < ({ envBase with numPlatforms := 0 } : Env).numPlatforms,
        ({ envBase with numPlatforms := 0 } : Env).platformInfoErr i = 0)) ∧
    ((({ envBase with numPlatforms := 0 } : Env).numPlatforms = 0 →
        (executeKernel { envBase with numPlatforms := 0 } paramsBase).outcome =
          .undefinedBehavior) ∧
      (0 < ({ envBase with numPlatforms := 0 } : Env).numPlatforms →
        platformSelIdx { envBase with numPlatforms := 0 } paramsBase <
          ({ envBase with numPlatforms := 0 } : Env).numPlatforms)) :=
  ⟨⟨by decide, by decide, by decide⟩,
    platform_selection_unguarded { envBase with numPlatforms := 0 } paramsBase
      (by decide) (by decide) (by decide)⟩

/-- C2 counterexample: the claim places context creation in the
process-terminating category, but a null context at line 108 makes
`executeKernel` print a diagnostic and `return -1` — it does not
terminate the process. -/
theorem context_failure_returns_cex :
    ({ envBase with contextOk := false } : Env).contextOk = false ∧
    (executeKernel { envBase with contextOk := false } paramsBase).outcome =
      .ret (-1) ∧
    (executeKernel { envBase with contextOk := false } paramsBase).outcome ≠
      .exitFailure := by
  refine ⟨by decide, by decide, by decide⟩

/-- C2 (amended): the process-fatal (`CL_CALL`) category is exactly the
enumeration and readback calls — platform counting, platform listing, the
platform-name queries, device counting, device listing, the device-info
queries and the post-run found-flag, digest and nonce readbacks; every
other failure — context creation, queue creation, kernel-source loading,
program creation, compilation, kernel extraction, buffer allocation,
argument binding and kernel-launch enqueue — prints a diagnostic and
returns `-1` to the caller. -/
theorem fatal_vs_returned_errors (env : Env) (p : Params) :
    (env.platformCountErr ≠ 0 →
      (executeKernel env p).outcome = .exitFailure) ∧
    (env.platformCountErr = 0 → env.platformListErr ≠ 0 →
      (executeKernel env p).outcome = .exitFailure) ∧
    (env.platformCountErr = 0 → env.platformListErr = 0 →
      ¬(∀ i < env.numPlatforms, env.platformInfoErr i = 0) →
      (executeKernel env p).outcome = .exitFailure) ∧
    (env.platformCountErr = 0 → env.platformListErr = 0 →
      (∀ i < env.numPlatforms, env.platformInfoErr i = 0) →
      platformSelIdx env p < env.numPlatforms → env.deviceCountErr ≠ 0 →
      (executeKernel env p).outcome = .exitFailure) ∧
    (env.platformCountErr = 0 → env.platformListErr = 0 →
      (∀ i < env.numPlatforms, env.platformInfoErr i = 0) →
      platformSelIdx env p < env.numPlatforms → env.deviceCountErr = 0 →
      uint32OfInt p.deviceId < env.numDevices → env.deviceListErr ≠ 0 →
      (executeKernel env p).outcome = .exitFailure) ∧
    (env.platformCountErr = 0 → env.platformListErr = 0 →
      (∀ i < env.numPlatforms, env.platformInfoErr i = 0) →
      platformSelIdx env p < env.numPlatforms → env.deviceCountErr = 0 →
      uint32OfInt p.deviceId < env.numDevices → env.deviceListErr = 0 →
      0 ≤ p.deviceId → p.showDeviceInfo = true → env.deviceInfoErr ≠ 0 →
      (executeKernel env p).outcome = .exitFailure) ∧
    (reachesDispatch env p → argErrAcc env = 0 →
      localWorkSize p.threadsPerBlock env.maxWorkGroupSize ≠ 0 →
      env.enqueueErr = 0 → env.readFoundErr ≠ 0 →
      (executeKernel env p).outcome = .exitFailure) ∧
    (reachesDispatch env p → argErrAcc env = 0 →
      localWorkSize p.threadsPerBlock env.maxWorkGroupSize ≠ 0 →
      env.enqueueErr = 0 → env.readFoundErr = 0 → env.foundValue = 1 →
      env.readOutputErr ≠ 0 →
      (executeKernel env p).outcome = .exitFailure) ∧
    (reachesDispatch env p → argErrAcc env = 0 →
      localWorkSize p.threadsPerBlock env.maxWorkGroupSize ≠ 0 →
      env.enqueueErr = 0 → env.readFoundErr = 0 → env.foundValue = 1 →
      env.readOutputErr = 0 → env.readNonceErr ≠ 0 →
      (executeKernel env p).outcome = .exitFailure) ∧
    (reachesSetup env p → env.contextOk = false →
      (executeKernel env p).outcome = .ret (-1)) ∧
    (reachesSetup env p → env.contextOk = true → env.queueOk = false →
      (executeKernel env p).outcome = .ret (-1)) ∧
    (reachesBuild env p →
      ¬(env.kernelFileOk = true ∧ env.keccakFileOk = true) →
      (executeKernel env p).outcome = .ret (-1)) ∧
    (reachesBuild env p → env.kernelFileOk = true → env.keccakFileOk = true →
      env.programOk = false → (executeKernel env p).outcome = .ret (-1)) ∧
    (reachesBuild env p → env.kernelFileOk = true → env.keccakFileOk = true →
      env.programOk = true → env.buildErr ≠ 0 →
      (executeKernel env p).outcome = .ret (-1)) ∧
    (reachesBuild env p → env.kernelFileOk = true → env.keccakFileOk = true →
      env.programOk = true → env.buildErr = 0 →
      ¬(env.kernelOk = true ∧ env.kernelErr = 0) →
      (executeKernel env p).outcome = .ret (-1)) ∧
    (reachesBuffers env p →
      ¬(env.bufOk 0 = true ∧ env.bufOk 1 = true ∧ env.bufOk 2 = true ∧
        env.bufOk 3 = true) →
      (executeKernel env p).outcome = .ret (-1)) ∧
    (reachesDispatch env p → argErrAcc env ≠ 0 →
      (executeKernel env p).outcome = .ret (-1)) ∧
    (reachesDispatch env p → argErrAcc env = 0 →
      localWorkSize p.threadsPerBlock env.maxWorkGroupSize ≠ 0 →
      env.enqueueErr ≠ 0 → (executeKernel env p).outcome = .ret (-1)) := by
  refine ⟨?_, ?_, ?_, ?_, ?_, ?_, ?_, ?_, ?_, ?_, ?_, ?_, ?_, ?_, ?_, ?_,
    ?_, ?_⟩
  · intro h1
    unfold executeKernel
    rw [if_neg h1]
  · intro h1 h2
    unfold executeKernel
    rw [if_pos h1, if_neg h2]
  · intro h1 h2 h3
    unfold executeKernel
    rw [if_pos h1, if_pos h2, if_neg h3]
  · intro h1 h2 h3 h4 h5
    unfold executeKernel
    rw [if_pos h1, if_pos h2, if_pos h3, if_pos h4, if_neg h5]
  · intro h1 h2 h3 h4 h5 h6 h7
    unfold executeKernel
    rw [if_pos h1, if_pos h2, if_pos h3, if_pos h4, if_pos h5, if_pos h6,
      if_neg h7]
  · intro h1 h2 h3 h4 h5 h6 h7 h8 h9 h10
    unfold executeKernel
    rw [if_pos h1, if_pos h2, if_pos h3, if_pos h4, if_pos h5, if_pos h6,
      if_pos h7, if_pos h8, if_neg (by simp [h9, h10])]
  · intro hd hacc hlws henq hread
    rw [executeKernel_eq_dispatchPhase env p hd, withEvents_outcome]
    unfold dispatchPhase
    rw [if_pos hacc, if_neg hlws, if_pos henq, withEvents_outcome]
    unfold dispatchPost
    rw [if_neg hread]
  · intro hd hacc hlws henq hread hfv hout
    rw [executeKernel_eq_dispatchPhase env p hd, withEvents_outcome]
    unfold dispatchPhase
    rw [if_pos hacc, if_neg hlws, if_pos henq, withEvents_outcome]
    unfold dispatchPost
    rw [if_pos hread, if_pos hfv, if_neg hout]
  · intro hd hacc hlws henq hread hfv hout hnn
    rw [executeKernel_eq_dispatchPhase env p hd, withEvents_outcome]
    unfold dispatchPhase
    rw [if_pos hacc, if_neg hlws, if_pos henq, withEvents_outcome]
    unfold dispatchPost
    rw [if_pos hread, if_pos hfv, if_pos hout, if_neg hnn]
  · intro hs hc
    rw [executeKernel_eq_setupPhase env p hs]
    unfold setupPhase
    rw [if_neg (by simp [hc])]
  · intro hs hc hq
    rw [executeKernel_eq_setupPhase env p hs]
    unfold setupPhase
    rw [if_pos (by simp [hc]), if_neg (by simp [hq])]
  · intro hb hfiles
    rw [executeKernel_eq_buildPhase env p hb, withEvents_outcome]
    unfold buildPhase
    rw [if_neg (by simpa using hfiles)]
  · intro hb hf1 hf2 hpr
    rw [executeKernel_eq_buildPhase env p hb, withEvents_outcome]
    unfold buildPhase
    rw [if_pos (by simp [hf1, hf2]), if_neg (by simp [hpr])]
  · intro hb hf1 hf2 hpr hbuild
    rw [executeKernel_eq_buildPhase env p hb, withEvents_outcome]
    unfold buildPhase
    rw [if_pos (by simp [hf1, hf2]), if_pos (by simp [hpr]), if_neg hbuild]
  · intro hb hf1 hf2 hpr hbe hk
    rw [executeKernel_eq_buildPhase env p hb, withEvents_outcome]
    unfold buildPhase
    rw [if_pos (by simp [hf1, hf2]), if_pos (by simp [hpr]), if_pos hbe,
      if_neg (by simpa using hk)]
  · intro hbuf halloc
    rw [executeKernel_eq_bufferPhase env p hbuf, withEvents_outcome]
    unfold bufferPhase
    rw [if_neg (by simpa using halloc)]
  · intro hd hacc
    rw [executeKernel_eq_dispatchPhase env p hd, withEvents_outcome]
    unfold dispatchPhase
    rw [if_neg hacc]
  · intro hd hacc hlws henq
    rw [executeKernel_eq_dispatchPhase env p hd, withEvents_outcome]
    unfold dispatchPhase
    rw [if_pos hacc, if_neg hlws, if_neg henq]

/-- C2 witness: concrete driver models exercising both categories of the
amended classification — a failed first `clGetPlatformIDs` call and a
failed digest readback terminate the process, while a failed context
creation and a failed third buffer allocation return `-1` — all derived
from the amended theorem. -/
theorem fatal_vs_returned_errors_witness :
    (({ envBase with platformCountErr := -30 } : Env).platformCountErr ≠ 0 ∧
      (executeKernel { envBase with platformCountErr := -30 }
          paramsBase).outcome = .exitFailure) ∧
    (({ envBase with foundValue := 1, readOutputErr := -5 } : Env).readOutputErr
        ≠ 0 ∧
      (executeKernel { envBase with foundValue := 1, readOutputErr := -5 }
          paramsBase).outcome = .exitFailure) ∧
    (reachesSetup { envBase with contextOk := false } paramsBase ∧
      (executeKernel { envBase with contextOk := false } paramsBase).outcome =
        .ret (-1)) ∧
    (({ envBase with bufOk := fun i => i != 2 } : Env).bufOk 2 = false ∧
      (executeKernel { envBase with bufOk := fun i => i != 2 }
          paramsBase).outcome = .ret (-1)) :=
  ⟨⟨by decide,
    (fatal_vs_returned_errors { envBase with platformCountErr := -30 }
      paramsBase).1 (by decide)⟩,
   ⟨by decide,
    (fatal_vs_returned_errors
      { envBase with foundValue := 1, readOutputErr := -5 }
      paramsBase).2.2.2.2.2.2.2.1 (by decide) (by decide) (by decide)
      (by decide) (by decide) (by decide) (by decide)⟩,
   ⟨by decide,
    (fatal_vs_returned_errors { envBase with contextOk := false }
      paramsBase).2.2.2.2.2.2.2.2.2.1 (by decide) (by decide)⟩,
   ⟨by decide,
    (fatal_vs_returned_errors { envBase with bufOk := fun i => i != 2 }
      paramsBase).2.2.2.2.2.2.2.2.2.2.2.2.2.2.2.1 (by decide) (by decide)⟩⟩

/-- C7: with control at the kernel-file loading (line 123), a missing
source file and a compile failure both produce a `-1` return — not a
process exit — after releasing exactly the resources allocated so far
(queue then context, plus the program in the compile case), and on
compile failure the full build log text is written to the error stream
strictly before the release calls, as the explicit traces show. -/
theorem build_failures_nonfatal (env : Env) (p : Params)
    (h : reachesBuild env p) :
    (env.kernelFileOk = false ∨ env.keccakFileOk = false →
      (executeKernel env p).outcome = .ret (-1) ∧
      (executeKernel env p).events =
        [.createContext true, .createQueue true,
         .cerr "Failed to load OpenCL kernel files.",
         .releaseQueue queueH, .releaseCtx ctxH]) ∧
    (env.kernelFileOk = true → env.keccakFileOk = true →
      env.programOk = true → env.buildErr ≠ 0 →
      (executeKernel env p).outcome = .ret (-1) ∧
      (executeKernel env p).events =
        [.createContext true, .createQueue true, .createProgram true,
         .cerr ("Kernel build error: " ++ env.buildLog),
         .releaseProg progH, .releaseQueue queueH, .releaseCtx ctxH]) := by
  constructor
  · intro hfail
    rw [executeKernel_eq_buildPhase env p h]
    unfold buildPhase
    have hnot : ¬(env.kernelFileOk ∧ env.keccakFileOk) := by
      rcases hfail with hx | hx <;> simp [hx]
    rw [if_neg hnot]
    exact ⟨rfl, rfl⟩
  · intro hf1 hf2 hpr hbuild
    rw [executeKernel_eq_buildPhase env p h]
    unfold buildPhase
    rw [if_pos (by simp [hf1, hf2]), if_pos (by simp [hpr]), if_neg hbuild]
    exact ⟨rfl, rfl⟩

/-- C7 witness: both failure modes at concrete driver models — a missing
`kernel.cl`, and a build failure with log text — via the theorem. -/
theorem build_failures_nonfatal_witness :
    (reachesBuild { envBase with kernelFileOk := false } paramsBase ∧
      ((executeKernel { envBase with kernelFileOk := false } paramsBase).outcome =
          .ret (-1) ∧
        (executeKernel { envBase with kernelFileOk := false } paramsBase).events =
          [.createContext true, .createQueue true,
           .cerr "Failed to load OpenCL kernel files.",
           .releaseQueue queueH, .releaseCtx ctxH])) ∧
    (reachesBuild { envBase with buildErr := -11, buildLog := "syntax error" }
        paramsBase ∧
      ((executeKernel { envBase with buildErr := -11, buildLog := "syntax error" }
            paramsBase).outcome = .ret (-1) ∧
        (executeKernel { envBase with buildErr := -11, buildLog := "syntax error" }
            paramsBase).events =
          [.createContext true, .createQueue true, .createProgram true,
           .cerr ("Kernel build error: " ++ "syntax error"),
           .releaseProg progH, .releaseQueue queueH, .releaseCtx ctxH])) :=
  ⟨⟨by decide,
    (build_failures_nonfatal { envBase with kernelFileOk := false } paramsBase
      (by decide)).1 (by decide)⟩,
   ⟨by decide,
    (build_failures_nonfatal
      { envBase with buildErr := -11, buildLog := "syntax error" } paramsBase
      (by decide)).2 (by decide) (by decide) (by decide) (by decide)⟩⟩

theorem dispatchPost_cases (env : Env) :
    (env.foundValue = 1 ∧ (dispatchPost env).outcome = .ret 1 ∧
      (dispatchPost env).hostDigest = some env.digest ∧
      (dispatchPost env).hostNonce = some env.nonceVal) ∨
    (env.foundValue ≠ 1 ∧
      (dispatchPost env).outcome = .ret env.foundValue ∧
      (dispatchPost env).hostDigest = none ∧
      (dispatchPost env).hostNonce = none) ∨
    ((dispatchPost env).outcome = .exitFailure ∧
      ((dispatchPost env).hostDigest = none ∨ env.foundValue = 1) ∧
      (dispatchPost env).hostNonce = none) := by
  unfold dispatchPost
  by_cases h1 : env.readFoundErr = 0
  · rw [if_pos h1]
    by_cases h2 : env.foundValue = 1
    · rw [if_pos h2]
      by_cases h3 : env.readOutputErr = 0
      · rw [if_pos h3]
        by_cases h4 : env.readNonceErr = 0
        · rw [if_pos h4]
          exact Or.inl ⟨h2, by rw [h2], rfl, rfl⟩
        · rw [if_neg h4]
          exact Or.inr (Or.inr ⟨rfl, Or.inr h2, rfl⟩)
      · rw [if_neg h3]
        exact Or.inr (Or.inr ⟨rfl, Or.inl rfl, rfl⟩)
    · rw [if_neg h2]
      exact Or.inr (Or.inl ⟨h2, rfl, rfl, rfl⟩)
  · rw [if_neg h1]
    exact Or.inr (Or.inr ⟨rfl, Or.inl rfl, rfl⟩)

theorem dispatchPhase_cases (env : Env) (p : Params) :
    earlyResult (dispatchPhase env p) (.ret (-1)) ∨
    earlyResult (dispatchPhase env p) .undefinedBehavior ∨
    sameResultFields (dispatchPhase env p) (dispatchPost env) := by
  unfold dispatchPhase
  by_cases h1 : argErrAcc env = 0
  · rw [if_pos h1]
    by_cases h2 : localWorkSize p.threadsPerBlock env.maxWorkGroupSize = 0
    · rw [if_pos h2]
      exact Or.inr (Or.inl ⟨rfl, rfl, rfl⟩)
    · rw [if_neg h2]
      by_cases h3 : env.enqueueErr = 0
      · rw [if_pos h3]
        exact Or.inr (Or.inr ⟨rfl, rfl, rfl⟩)
      · rw [if_neg h3]
        exact Or.inl ⟨rfl, rfl, rfl⟩
  · rw [if_neg h1]
    exact Or.inl ⟨rfl, rfl, rfl⟩

theorem bufferPhase_cases (env : Env) (p : Params) :
    earlyResult (bufferPhase env p) (.ret (-1)) ∨
    earlyResult (bufferPhase env p) .undefinedBehavior ∨
    sameResultFields (bufferPhase env p) (dispatchPost env) := by
  unfold bufferPhase
  by_cases h : env.bufOk 0 ∧ env.bufOk 1 ∧ env.bufOk 2 ∧ env.bufOk 3
  · rw [if_pos h]
    rcases dispatchPhase_cases env p with ⟨h1, h2, h3⟩ | ⟨h1, h2, h3⟩ |
      ⟨h1, h2, h3⟩
    · exact Or.inl ⟨h1, h2, h3⟩
    · exact Or.inr (Or.inl ⟨h1, h2, h3⟩)
    · exact Or.inr (Or.inr ⟨h1, h2, h3⟩)
  · rw [if_neg h]
    exact Or.inl ⟨rfl, rfl, rfl⟩

theorem buildPhase_cases (env : Env) (p : Params) :
    earlyResult (buildPhase env p) (.ret (-1)) ∨
    earlyResult (buildPhase env p) .undefinedBehavior ∨
    sameResultFields (buildPhase env p) (dispatchPost env) := by
  unfold buildPhase
  by_cases h1 : env.kernelFileOk ∧ env.keccakFileOk
  · rw [if_pos h1]
    by_cases h2 : env.programOk = true
    · rw [if_pos h2]
      by_cases h3 : env.buildErr = 0
      · rw [if_pos h3]
        by_cases h4 : env.kernelOk ∧ env.kernelErr = 0
        · rw [if_pos h4]
          rcases bufferPhase_cases env p with ⟨ha, hb, hc⟩ | ⟨ha, hb, hc⟩ |
            ⟨ha, hb, hc⟩
          · exact Or.inl ⟨ha, hb, hc⟩
          · exact Or.inr (Or.inl ⟨ha, hb, hc⟩)
          · exact Or.inr (Or.inr ⟨ha, hb, hc⟩)
        · rw [if_neg h4]
          exact Or.inl ⟨rfl, rfl, rfl⟩
      · rw [if_neg h3]
        exact Or.inl ⟨rfl, rfl, rfl⟩
    · rw [if_neg h2]
      exact Or.inl ⟨rfl, rfl, rfl⟩
  · rw [if_neg h1]
    exact Or.inl ⟨rfl, rfl, rfl⟩

theorem setupPhase_cases (env : Env) (p : Params) :
    earlyResult (setupPhase env p) (.ret (-1)) ∨
    earlyResult (setupPhase env p) .undefinedBehavior ∨
    sameResultFields (setupPhase env p) (dispatchPost env) := by
  unfold setupPhase
  by_cases h1 : env.contextOk = true
  · rw [if_pos h1]
    by_cases h2 : env.queueOk = true
    · rw [if_pos h2]
      rcases buildPhase_cases env p with ⟨ha, hb, hc⟩ | ⟨ha, hb, hc⟩ |
        ⟨ha, hb, hc⟩
      · exact Or.inl ⟨ha, hb, hc⟩
      · exact Or.inr (Or.inl ⟨ha, hb, hc⟩)
      · exact Or.inr (Or.inr ⟨ha, hb, hc⟩)
    · rw [if_neg h2]
      exact Or.inl ⟨rfl, rfl, rfl⟩
  · rw [if_neg h1]
    exact Or.inl ⟨rfl, rfl, rfl⟩

theorem executeKernel_cases (env : Env) (p : Params) :
    earlyResult (executeKernel env p) .exitFailure ∨
    earlyResult (executeKernel env p) .undefinedBehavior ∨
    earlyResult (executeKernel env p) (.ret (-1)) ∨
    sameResultFields (executeKernel env p) (dispatchPost env) := by
  unfold executeKernel
  by_cases h1 : env.platformCountErr = 0
  · rw [if_pos h1]
    by_cases h2 : env.platformListErr = 0
    · rw [if_pos h2]
      by_cases h3 : ∀ i < env.numPlatforms, env.platformInfoErr i = 0
      · rw [if_pos h3]
        by_cases h4 : platformSelIdx env p < env.numPlatforms
        · rw [if_pos h4]
          by_cases h5 : env.deviceCountErr = 0
          · rw [if_pos h5]
            by_cases h6 : uint32OfInt p.deviceId < env.numDevices
            · rw [if_pos h6]
              by_cases h7 : env.deviceListErr = 0
              · rw [if_pos h7]
                by_cases h8 : (0 : Int) ≤ p.deviceId
                · rw [if_pos h8]
                  by_cases h9 : p.showDeviceInfo = false ∨ env.deviceInfoErr = 0
                  · rw [if_pos h9]
                    rcases setupPhase_cases env p with ⟨ha, hb, hc⟩ |
                      ⟨ha, hb, hc⟩ | ⟨ha, hb, hc⟩
                    · exact Or.inr (Or.inr (Or.inl ⟨ha, hb, hc⟩))
                    · exact Or.inr (Or.inl ⟨ha, hb, hc⟩)
                    · exact Or.inr (Or.inr (Or.inr ⟨ha, hb, hc⟩))
                  · rw [if_neg h9]
                    exact Or.inl ⟨rfl, rfl, rfl⟩
                · rw [if_neg h8]
                  exact Or.inr (Or.inl ⟨rfl, rfl, rfl⟩)
              · rw [if_neg h7]
                exact Or.inl ⟨rfl, rfl, rfl⟩
            · rw [if_neg h6]
              exact Or.inr (Or.inr (Or.inl ⟨rfl, rfl, rfl⟩))
          · rw [if_neg h5]
            exact Or.inl ⟨rfl, rfl, rfl⟩
        · rw [if_neg h4]
          exact Or.inr (Or.inl ⟨rfl, rfl, rfl⟩)
      · rw [if_neg h3]
        exact Or.inl ⟨rfl, rfl, rfl⟩
    · rw [if_neg h2]
      exact Or.inl ⟨rfl, rfl, rfl⟩
  · rw [if_neg h1]
    exact Or.inl ⟨rfl, rfl, rfl⟩

theorem executeKernel_ret_cases (env : Env) (p : Params) (c : Int)
    (h : (executeKernel env p).outcome = .ret c) :
    c = -1 ∨ c = env.foundValue := by
  rcases executeKernel_cases env p with ⟨ho, -, -⟩ | ⟨ho, -, -⟩ | ⟨ho, -, -⟩ |
    ⟨ho, -, -⟩
  · rw [ho] at h; exact absurd h (by simp)
  · rw [ho] at h; exact absurd h (by simp)
  · rw [ho] at h
    left
    exact (Outcome.ret.injEq _ _).mp h.symm
  · rw [ho] at h
    rcases dispatchPost_cases env with ⟨hv, hr, -, -⟩ | ⟨-, hr, -, -⟩ |
      ⟨hr, -, -⟩
    · rw [hr] at h
      right
      rw [hv]
      exact (Outcome.ret.injEq _ _).mp h.symm
    · rw [hr] at h
      right
      exact (Outcome.ret.injEq _ _).mp h.symm
    · rw [hr] at h
      exact absurd h (by simp)

/-- C1 counterexample: the success path returns the raw flag value read
back from the device (line 209).  If the kernel leaves `2` in the found
flag, `executeKernel` returns `2`, which is none of the three claimed
values. -/
theorem return_value_raw_flag_cex :
    (executeKernel { envBase with foundValue := 2 } paramsBase).outcome =
      .ret 2 ∧ ¬((2 : Int) = -1 ∨ (2 : Int) = 0 ∨ (2 : Int) = 1) := by
  refine ⟨by decide, by decide⟩

/-- C1 (amended): provided the device kernel leaves only `0` or `1` in
the found-flag buffer (the kernel contract), every return value of
`executeKernel` is `-1`, `0` or `1`; a `0` return means the flag read
back `0` and a `1` return means it read back `1`.  Without that proviso
the success path returns the raw flag value. -/
theorem return_value_tristate (env : Env) (p : Params)
    (hfv : env.foundValue = 0 ∨ env.foundValue = 1) :
    (∀ c : Int, (executeKernel env p).outcome = .ret c →
      c = -1 ∨ c = 0 ∨ c = 1) ∧
    ((executeKernel env p).outcome = .ret 0 → env.foundValue = 0) ∧
    ((executeKernel env p).outcome = .ret 1 → env.foundValue = 1) := by
  refine ⟨?_, ?_, ?_⟩
  · intro c hc
    rcases executeKernel_ret_cases env p c hc with h | h
    · exact Or.inl h
    · rcases hfv with hf | hf
      · exact Or.inr (Or.inl (h.trans hf))
      · exact Or.inr (Or.inr (h.trans hf))
  · intro h0
    rcases executeKernel_ret_cases env p 0 h0 with h | h
    · exact absurd h (by norm_num)
    · exact h.symm
  · intro h1
    rcases executeKernel_ret_cases env p 1 h1 with h | h
    · exact absurd h (by norm_num)
    · exact h.symm

/-- C1 witness: the all-success driver model with the flag left at `0` —
the call returns `0`, one of the three admitted values. -/
theorem return_value_tristate_witness :
    (envBase.foundValue = 0 ∨ envBase.foundValue = 1) ∧
    (executeKernel envBase paramsBase).outcome = .ret 0 ∧
    ((0 : Int) = -1 ∨ (0 : Int) = 0 ∨ (0 : Int) = 1) :=
  ⟨Or.inl (by decide), by decide,
    (return_value_tristate envBase paramsBase (Or.inl (by decide))).1 0
      (by decide)⟩

/-- C5: the caller-provided digest and nonce storage is written only when
the found flag reads back as exactly `1` after device completion, and on
every call returning `-1` or `0` both remain unchanged. -/
theorem outputs_gated_on_found_flag (env : Env) (p : Params) :
    ((executeKernel env p).hostDigest ≠ none → env.foundValue = 1) ∧
    ((executeKernel env p).hostNonce ≠ none → env.foundValue = 1) ∧
    (∀ c : Int, (executeKernel env p).outcome = .ret c →
      c = -1 ∨ c = 0 →
      (executeKernel env p).hostDigest = none ∧
      (executeKernel env p).hostNonce = none) := by
  rcases executeKernel_cases env p with ⟨ho, hd, hn⟩ | ⟨ho, hd, hn⟩ |
    ⟨ho, hd, hn⟩ | ⟨ho, hd, hn⟩
  · exact ⟨fun h => absurd hd h, fun h => absurd hn h,
      fun c hc _ => ⟨hd, hn⟩⟩
  · exact ⟨fun h => absurd hd h, fun h => absurd hn h,
      fun c hc _ => ⟨hd, hn⟩⟩
  · exact ⟨fun h => absurd hd h, fun h => absurd hn h,
      fun c hc _ => ⟨hd, hn⟩⟩
  · rcases dispatchPost_cases env with ⟨hv, hr, hdd, hnn⟩ |
      ⟨hv, hr, hdd, hnn⟩ | ⟨hr, hdd, hnn⟩
    · refine ⟨fun _ => hv, fun _ => hv, ?_⟩
      intro c hc hval
      rw [ho, hr] at hc
      have : (1 : Int) = c := (Outcome.ret.injEq _ _).mp hc
      rcases hval with h | h <;> omega
    · refine ⟨?_, ?_, ?_⟩
      · intro h
        rw [hd, hdd] at h
        exact absurd rfl h
      · intro h
        rw [hn, hnn] at h
        exact absurd rfl h
      · intro c hc hval
        exact ⟨hd.trans hdd, hn.trans hnn⟩
    · refine ⟨?_, ?_, ?_⟩
      · intro h
        rw [hd] at h
        rcases hdd with h2 | h2
        · exact absurd h2 h
        · exact h2
      · intro h
        rw [hn, hnn] at h
        exact absurd rfl h
      · intro c hc hval
        rw [ho, hr] at hc
        exact absurd hc (by simp)

/-- C5 witness: with the flag left at `1` the digest storage is written
and the theorem yields the flag value; with the flag at `0` the call
returns `0` and both outputs stay unwritten. -/
theorem outputs_gated_on_found_flag_witness :
    ((executeKernel { envBase with foundValue := 1 } paramsBase).hostDigest ≠
        none ∧
      ({ envBase with foundValue := 1 } : Env).foundValue = 1) ∧
    ((executeKernel envBase paramsBase).outcome = .ret 0 ∧
      (executeKernel envBase paramsBase).hostDigest = none ∧
      (executeKernel envBase paramsBase).hostNonce = none) :=
  ⟨⟨by decide,
    (outputs_gated_on_found_flag { envBase with foundValue := 1 }
      paramsBase).1 (by decide)⟩,
   ⟨by decide,
    (outputs_gated_on_found_flag envBase paramsBase).2.2 0 (by decide)
      (Or.inr (by decide))⟩⟩

theorem lor_eq_zero_parts {a b : Nat} (h : a ||| b = 0) : a = 0 ∧ b = 0 := by
  constructor <;>
  · apply Nat.eq_of_testBit_eq
    intro i
    have h2 := congrArg (fun x => Nat.testBit x i) h
    simp only [Nat.testBit_lor, Nat.zero_testBit, Bool.or_eq_false_iff] at h2
    simp [h2.1, h2.2]

theorem writeErr_zero_of_argErrAcc (env : Env) (h : argErrAcc env = 0) :
    env.writeErr = 0 := by
  unfold argErrAcc at h
  replace h := (lor_eq_zero_parts h).1
  replace h := (lor_eq_zero_parts h).1
  replace h := (lor_eq_zero_parts h).1
  replace h := (lor_eq_zero_parts h).1
  replace h := (lor_eq_zero_parts h).1
  replace h := (lor_eq_zero_parts h).1
  replace h := (lor_eq_zero_parts h).1
  replace h := (lor_eq_zero_parts h).1
  exact (lor_eq_zero_parts h).1

theorem isEnqueue_false_of_mem_release {e : Event} (c q pr k : Option Nat)
    (bufs : List (Option Nat)) (h : e ∈ releaseResources c q pr k bufs) :
    isEnqueue e = false := by
  unfold releaseResources at h
  rcases List.mem_append.mp h with h | hc
  · rcases List.mem_append.mp h with h | hq
    · rcases List.mem_append.mp h with h | hp
      · rcases List.mem_append.mp h with hm | hk
        · obtain ⟨b, -, hb⟩ := List.mem_filterMap.mp hm
          cases b with
          | none => simp at hb
          | some x =>
            simp only [Option.map_some'] at hb
            rw [← Option.some_inj.mp hb]
            rfl
        · cases k with
          | none => simp at hk
          | some x => simp at hk; subst hk; rfl
      · cases pr with
        | none => simp at hp
        | some x => simp at hp; subst hp; rfl
    · cases q with
      | none => simp at hq
      | some x => simp at hq; subst hq; rfl
  · cases c with
    | none => simp at hc
    | some x => simp at hc; subst hc; rfl

theorem no_enqueue_append {l1 l2 : List Event}
    (h1 : ∀ e ∈ l1, isEnqueue e = false)
    (h2 : ∀ e ∈ l2, isEnqueue e = false) :
    ∀ e ∈ l1 ++ l2, isEnqueue e = false := by
  intro e he
  rcases List.mem_append.mp he with h | h
  · exact h1 e h
  · exact h2 e h

theorem dispatchPost_no_enqueue (env : Env) :
    ∀ e ∈ (dispatchPost env).events, isEnqueue e = false := by
  have hrel : ∀ e ∈ releaseResources (some ctxH) (some queueH) (some progH)
      (some kernH) (bufHandles env), isEnqueue e = false :=
    fun e h => isEnqueue_false_of_mem_release _ _ _ _ _ h
  unfold dispatchPost
  by_cases h1 : env.readFoundErr = 0
  · rw [if_pos h1]
    by_cases h2 : env.foundValue = 1
    · rw [if_pos h2]
      by_cases h3 : env.readOutputErr = 0
      · rw [if_pos h3]
        by_cases h4 : env.readNonceErr = 0
        · rw [if_pos h4]
          refine no_enqueue_append ?_ hrel
          intro e he
          simp only [List.mem_cons, List.not_mem_nil, or_false] at he
          rcases he with rfl | rfl | rfl | rfl <;> rfl
        · rw [if_neg h4]
          intro e he
          simp only [List.mem_cons, List.not_mem_nil, or_false] at he
          rcases he with rfl | rfl | rfl | rfl <;> rfl
      · rw [if_neg h3]
        intro e he
        simp only [List.mem_cons, List.not_mem_nil, or_false] at he
        rcases he with rfl | rfl | rfl <;> rfl
    · rw [if_neg h2]
      refine no_enqueue_append ?_ hrel
      intro e he
      simp only [List.mem_cons, List.not_mem_nil, or_false] at he
      rcases he with rfl | rfl <;> rfl
  · rw [if_neg h1]
    intro e he
    simp only [List.mem_cons, List.not_mem_nil, or_false] at he
    rcases he with rfl | rfl <;> rfl

theorem dispatchPhase_enqueue_cases (env : Env) (p : Params) :
    (∀ e ∈ (dispatchPhase env p).events, isEnqueue e = false) ∨
    (argErrAcc env = 0 ∧
      ∃ l2, (dispatchPhase env p).events =
          Event.writeFound true 0 env.writeErr :: l2 ∧
        ∃ g l cd, Event.enqueue g l cd ∈ l2) := by
  have hrel : ∀ e ∈ releaseResources (some ctxH) (some queueH) (some progH)
      (some kernH) (bufHandles env), isEnqueue e = false :=
    fun e h => isEnqueue_false_of_mem_release _ _ _ _ _ h
  unfold dispatchPhase
  by_cases h1 : argErrAcc env = 0
  · rw [if_pos h1]
    by_cases h2 : localWorkSize p.threadsPerBlock env.maxWorkGroupSize = 0
    · rw [if_pos h2]
      left
      intro e he
      simp only [List.mem_cons, List.not_mem_nil, or_false] at he
      rcases he with rfl | rfl | rfl | rfl | rfl | rfl | rfl | rfl | rfl |
        rfl <;> rfl
    · rw [if_neg h2]
      by_cases h3 : env.enqueueErr = 0
      · rw [if_pos h3]
        right
        refine ⟨h1, _, rfl, ?_⟩
        exact ⟨globalWorkSize p.batchSize
            (localWorkSize p.threadsPerBlock env.maxWorkGroupSize),
          localWorkSize p.threadsPerBlock env.maxWorkGroupSize, 0, by simp⟩
      · rw [if_neg h3]
        right
        refine ⟨h1, _, rfl, ?_⟩
        exact ⟨globalWorkSize p.batchSize
            (localWorkSize p.threadsPerBlock env.maxWorkGroupSize),
          localWorkSize p.threadsPerBlock env.maxWorkGroupSize,
          env.enqueueErr, by simp⟩
  · rw [if_neg h1]
    left
    refine no_enqueue_append (no_enqueue_append ?_ ?_) hrel
    · intro e he
      simp only [List.mem_cons, List.not_mem_nil, or_false] at he
      rcases he with rfl | rfl | rfl | rfl | rfl | rfl | rfl | rfl | rfl |
        rfl <;> rfl
    · intro e he
      simp only [List.mem_cons, List.not_mem_nil, or_false] at he
      subst he
      rfl

theorem bufferPhase_enqueue_cases (env : Env) (p : Params) :
    (∀ e ∈ (bufferPhase env p).events, isEnqueue e = false) ∨
    (∃ pre, (bufferPhase env p).events = pre ++ (dispatchPhase env p).events ∧
      ∀ e ∈ pre, isEnqueue e = false) := by
  unfold bufferPhase
  by_cases h : env.bufOk 0 ∧ env.bufOk 1 ∧ env.bufOk 2 ∧ env.bufOk 3
  · rw [if_pos h]
    right
    refine ⟨_, rfl, ?_⟩
    intro e he
    simp only [List.mem_cons, List.not_mem_nil, or_false] at he
    rcases he with rfl | rfl | rfl | rfl <;> rfl
  · rw [if_neg h]
    left
    refine no_enqueue_append (no_enqueue_append ?_ ?_)
      (fun e h2 => isEnqueue_false_of_mem_release _ _ _ _ _ h2)
    · intro e he
      simp only [List.mem_cons, List.not_mem_nil, or_false] at he
      rcases he with rfl | rfl | rfl | rfl <;> rfl
    · intro e he
      simp only [List.mem_cons, List.not_mem_nil, or_false] at he
      subst he
      rfl

theorem buildPhase_enqueue_cases (env : Env) (p : Params) :
    (∀ e ∈ (buildPhase env p).events, isEnqueue e = false) ∨
    (∃ pre, (buildPhase env p).events = pre ++ (dispatchPhase env p).events ∧
      ∀ e ∈ pre, isEnqueue e = false) := by
  unfold buildPhase
  by_cases h1 : env.kernelFileOk ∧ env.keccakFileOk
  · rw [if_pos h1]
    by_cases h2 : env.programOk = true
    · rw [if_pos h2]
      by_cases h3 : env.buildErr = 0
      · rw [if_pos h3]
        by_cases h4 : env.kernelOk ∧ env.kernelErr = 0
        · rw [if_pos h4]
          rcases bufferPhase_enqueue_cases env p with hA | ⟨pre, heq, hpre⟩
          · left
            refine no_enqueue_append ?_ hA
            intro e he
            simp only [List.mem_cons, List.not_mem_nil, or_false] at he
            rcases he with rfl | rfl <;> rfl
          · right
            refine ⟨[Event.createProgram true, Event.createKernel true] ++ pre,
              ?_, ?_⟩
            · rw [withEvents_events, heq]
              exact (List.append_assoc _ _ _).symm
            · refine no_enqueue_append ?_ hpre
              intro e he
              simp only [List.mem_cons, List.not_mem_nil, or_false] at he
              rcases he with rfl | rfl <;> rfl
        · rw [if_neg h4]
          left
          refine no_enqueue_append ?_
            (fun e h2 => isEnqueue_false_of_mem_release _ _ _ _ _ h2)
          intro e he
          simp only [List.mem_cons, List.not_mem_nil, or_false] at he
          rcases he with rfl | rfl | rfl <;> rfl
      · rw [if_neg h3]
        left
        refine no_enqueue_append ?_
          (fun e h2 => isEnqueue_false_of_mem_release _ _ _ _ _ h2)
        intro e he
        simp only [List.mem_cons, List.not_mem_nil, or_false] at he
        rcases he with rfl | rfl <;> rfl
    · rw [if_neg h2]
      left
      refine no_enqueue_append ?_
        (fun e h2 => isEnqueue_false_of_mem_release _ _ _ _ _ h2)
      intro e he
      simp only [List.mem_cons, List.not_mem_nil, or_false] at he
      rcases he with rfl | rfl <;> rfl
  · rw [if_neg h1]
    left
    refine no_enqueue_append ?_
      (fun e h2 => isEnqueue_false_of_mem_release _ _ _ _ _ h2)
    intro e he
    simp only [List.mem_cons, List.not_mem_nil, or_false] at he
    subst he
    rfl

theorem setupPhase_enqueue_cases (env : Env) (p : Params) :
    (∀ e ∈ (setupPhase env p).events, isEnqueue e = false) ∨
    (∃ pre, (setupPhase env p).events = pre ++ (dispatchPhase env p).events ∧
      ∀ e ∈ pre, isEnqueue e = false) := by
  unfold setupPhase
  by_cases h1 : env.contextOk = true
  · rw [if_pos h1]
    by_cases h2 : env.queueOk = true
    · rw [if_pos h2]
      rcases buildPhase_enqueue_cases env p with hA | ⟨pre, heq, hpre⟩
      · left
        refine no_enqueue_append ?_ hA
        intro e he
        simp only [List.mem_cons, List.not_mem_nil, or_false] at he
        rcases he with rfl | rfl <;> rfl
      · right
        refine ⟨[Event.createContext true, Event.createQueue true] ++ pre,
          ?_, ?_⟩
        · rw [withEvents_events, heq]
          exact (List.append_assoc _ _ _).symm
        · refine no_enqueue_append ?_ hpre
          intro e he
          simp only [List.mem_cons, List.not_mem_nil, or_false] at he
          rcases he with rfl | rfl <;> rfl
    · rw [if_neg h2]
      left
      refine no_enqueue_append ?_
        (fun e h2 => isEnqueue_false_of_mem_release _ _ _ _ _ h2)
      intro e he
      simp only [List.mem_cons, List.not_mem_nil, or_false] at he
      rcases he with rfl | rfl | rfl <;> rfl
  · rw [if_neg h1]
    left
    intro e he
    simp only [List.mem_cons, List.not_mem_nil, or_false] at he
    rcases he with rfl | rfl <;> rfl

theorem executeKernel_enqueue_cases (env : Env) (p : Params) :
    (∀ e ∈ (executeKernel env p).events, isEnqueue e = false) ∨
    (∃ pre, (executeKernel env p).events =
        pre ++ (dispatchPhase env p).events ∧
      ∀ e ∈ pre, isEnqueue e = false) := by
  unfold executeKernel
  by_cases h1 : env.platformCountErr = 0
  · rw [if_pos h1]
    by_cases h2 : env.platformListErr = 0
    · rw [if_pos h2]
      by_cases h3 : ∀ i < env.numPlatforms, env.platformInfoErr i = 0
      · rw [if_pos h3]
        by_cases h4 : platformSelIdx env p < env.numPlatforms
        · rw [if_pos h4]
          by_cases h5 : env.deviceCountErr = 0
          · rw [if_pos h5]
            by_cases h6 : uint32OfInt p.deviceId < env.numDevices
            · rw [if_pos h6]
              by_cases h7 : env.deviceListErr = 0
              · rw [if_pos h7]
                by_cases h8 : (0 : Int) ≤ p.deviceId
                · rw [if_pos h8]
                  by_cases h9 : p.showDeviceInfo = false ∨
                      env.deviceInfoErr = 0
                  · rw [if_pos h9]
                    exact setupPhase_enqueue_cases env p
                  · rw [if_neg h9]
                    left
                    intro e he
                    simp at he
                · rw [if_neg h8]
                  left
                  intro e he
                  simp at he
              · rw [if_neg h7]
                left
                intro e he
                simp at he
            · rw [if_neg h6]
              left
              intro e he
              simp only [List.mem_cons, List.not_mem_nil, or_false] at he
              subst he
              rfl
          · rw [if_neg h5]
            left
            intro e he
            simp at he
        · rw [if_neg h4]
          left
          intro e he
          simp at he
      · rw [if_neg h3]
        left
        intro e he
        simp at he
    · rw [if_neg h2]
      left
      intro e he
      simp at he
  · rw [if_neg h1]
    left
    intro e he
    simp at he

/-- C8: on every execution path on which the kernel is enqueued
(line 195), the trace begins with non-enqueue events followed by the
blocking write of the scalar `0` into the FoundFlag buffer with return
code `CL_SUCCESS` — the accumulated `|=` error of lines 175-184 being
zero forces the write's code to be zero — and the enqueue occurs strictly
after that completed write. -/
theorem flag_cleared_before_enqueue (env : Env) (p : Params)
    (h : ∃ e ∈ (executeKernel env p).events, isEnqueue e = true) :
    env.writeErr = 0 ∧
    ∃ l1 l2, (executeKernel env p).events =
        l1 ++ Event.writeFound true 0 0 :: l2 ∧
      (∀ e ∈ l1, isEnqueue e = false) ∧
      ∃ g l cd, Event.enqueue g l cd ∈ l2 := by
  rcases executeKernel_enqueue_cases env p with hA | ⟨pre, heq, hpre⟩
  · obtain ⟨e, he, hEnq⟩ := h
    rw [hA e he] at hEnq
    exact absurd hEnq (by simp)
  · rcases dispatchPhase_enqueue_cases env p with hA |
      ⟨hacc, l2, hd, g, l, cd, hm⟩
    · obtain ⟨e, he, hEnq⟩ := h
      rw [heq] at he
      rcases List.mem_append.mp he with h1 | h2
      · rw [hpre e h1] at hEnq
        exact absurd hEnq (by simp)
      · rw [hA e h2] at hEnq
        exact absurd hEnq (by simp)
    · have hw : env.writeErr = 0 := writeErr_zero_of_argErrAcc env hacc
      refine ⟨hw, pre, l2, ?_, hpre, g, l, cd, hm⟩
      rw [heq, hd, hw]

/-- C8 witness: the all-success driver model enqueues the kernel, and the
theorem decomposes its trace around the completed flag-clearing write. -/
theorem flag_cleared_before_enqueue_witness :
    (∃ e ∈ (executeKernel envBase paramsBase).events, isEnqueue e = true) ∧
    (envBase.writeErr = 0 ∧
      ∃ l1 l2, (executeKernel envBase paramsBase).events =
          l1 ++ Event.writeFound true 0 0 :: l2 ∧
        (∀ e ∈ l1, isEnqueue e = false) ∧
        ∃ g l cd, Event.enqueue g l cd ∈ l2) :=
  ⟨by decide, flag_cleared_before_enqueue envBase paramsBase (by decide)⟩
